import Mathlib

/-!
Verification of the scene-node module of rg3d (`src/scene/node.rs`).

The module defines a closed sum type `Node` over six kinds (Base, Light,
Camera, Mesh, Sprite, ParticleSystem), a stable small-integer kind
identifier (`Node::id` / `Node::from_id`), a self-describing `Visit`
implementation that writes the kind identifier under the reserved field
name "KindId" before delegating to the active payload's own codec,
`Deref`/`DerefMut` views onto the embedded shared `Base`, a `Default`
instance, and macro-generated `is_` / `as_` / `as_mut` accessors per
concrete kind.

The per-kind payload types, the shared `Base` record and the field
visitor protocol live outside the module and are treated by it as opaque
collaborators; they are modelled here from the specification's boundary
description (each definition so modelled says so in its doc comment).
Everything else is a direct translation of the Rust source.
-/

namespace RG3D

/-- Modelled from the spec: the shared "base" record every payload embeds
(local transform, hierarchy links, name, visibility — opaque here). We
keep the two representative fields the spec names for shared-base
get/set scenarios (`name`, visibility flag); the rest of the record is
irrelevant to the claims and is not needed by them. -/
structure Base where
  name : String
  visible : Bool
  deriving Repr, DecidableEq

/-- Modelled from the spec: `Base::default()`, a default-constructed base
payload. -/
def Base.default : Base := { name := "", visible := true }

/-- Modelled from the spec: the `Light` payload type — an opaque per-kind
payload embedding a `Base`; its private fields are abstracted as one
opaque word. -/
structure Light where
  base : Base
  data : Nat
  deriving Repr, DecidableEq

/-- Modelled from the spec: `Light::default()`. -/
def Light.default : Light := { base := Base.default, data := 0 }

/-- Modelled from the spec: the `Camera` payload type (see `Light`). -/
structure Camera where
  base : Base
  data : Nat
  deriving Repr, DecidableEq

/-- Modelled from the spec: `Camera::default()`. -/
def Camera.default : Camera := { base := Base.default, data := 0 }

/-- Modelled from the spec: the `Mesh` payload type (see `Light`). -/
structure Mesh where
  base : Base
  data : Nat
  deriving Repr, DecidableEq

/-- Modelled from the spec: `Mesh::default()`. -/
def Mesh.default : Mesh := { base := Base.default, data := 0 }

/-- Modelled from the spec: the `Sprite` payload type (see `Light`). -/
structure Sprite where
  base : Base
  data : Nat
  deriving Repr, DecidableEq

/-- Modelled from the spec: `Sprite::default()`. -/
def Sprite.default : Sprite := { base := Base.default, data := 0 }

/-- Modelled from the spec: the `ParticleSystem` payload type (see
`Light`). -/
structure ParticleSystem where
  base : Base
  data : Nat
  deriving Repr, DecidableEq

/-- Modelled from the spec: `ParticleSystem::default()`. -/
def ParticleSystem.default : ParticleSystem := { base := Base.default, data := 0 }

/-- The `Node` enum of `src/scene/node.rs`: a closed sum over exactly six
kinds, in the source's declaration order. Exactly one payload is live at
a time; the constructor itself is the authoritative tag. -/
inductive Node where
  | base (v : Base)
  | light (v : Light)
  | camera (v : Camera)
  | mesh (v : Mesh)
  | sprite (v : Sprite)
  | particleSystem (v : ParticleSystem)
  deriving Repr, DecidableEq

/-- `Node::id`: returns the actual variant id (a `u8` in the source;
its values all fit in a byte). Direct translation of the exhaustive
match in the source. -/
def Node.id : Node → Nat
  | .base _ => 0
  | .light _ => 1
  | .camera _ => 2
  | .mesh _ => 3
  | .sprite _ => 4
  | .particleSystem _ => 5

/-- `Node::from_id`: creates a new default `Node` from a variant id,
failing with an error message on any id outside `0..=5`. Direct
translation of the source match, including its error text
(`format!("Invalid node kind {}", id)`). -/
def Node.from_id : Nat → Except String Node
  | 0 => .ok (.base Base.default)
  | 1 => .ok (.light Light.default)
  | 2 => .ok (.camera Camera.default)
  | 3 => .ok (.mesh Mesh.default)
  | 4 => .ok (.sprite Sprite.default)
  | 5 => .ok (.particleSystem ParticleSystem.default)
  | i => .error ("Invalid node kind " ++ toString i)

/-- `impl Default for Node`: `Node::Base(Default::default())`. -/
def Node.default : Node := .base Base.default

/-- `impl Deref for Node` (target `Base`): `static_dispatch_deref!`
returns the payload of the active case, which the payload types' own
`Deref` impls coerce to their embedded `Base`; for the `Base` case the
payload is the `Base` itself. -/
def Node.derefBase : Node → Base
  | .base v => v
  | .mesh v => v.base
  | .camera v => v.base
  | .light v => v.base
  | .particleSystem v => v.base
  | .sprite v => v.base

/-- `impl DerefMut for Node`: mutation through the deref view, modelled
functionally — applying `f` to the `Base` reached by
`static_dispatch_deref!` and storing it back in place. -/
def Node.modifyBase (f : Base → Base) : Node → Node
  | .base v => .base (f v)
  | .mesh v => .mesh { v with base := f v.base }
  | .camera v => .camera { v with base := f v.base }
  | .light v => .light { v with base := f v.base }
  | .particleSystem v => .particleSystem { v with base := f v.base }
  | .sprite v => .sprite { v with base := f v.base }

/-- Shared-base setter used through the `DerefMut` view: `node.name = s`
(a representative shared-base mutation from the spec scenarios). -/
def Node.setName (n : Node) (s : String) : Node :=
  n.modifyBase (fun b => { b with name := s })

/-- Shared-base getter used through the `Deref` view: reading
`node.name`. -/
def Node.getName (n : Node) : String :=
  n.derefBase.name

/-- `is_mesh` from `define_is_as!`: true iff the active case is `Mesh`. -/
def Node.is_mesh : Node → Bool
  | .mesh _ => true
  | _ => false

/-- `as_mesh` from `define_is_as!`: the concrete payload when the active
case is `Mesh`; `none` models the `panic!("Cast to Mesh failed!")` on any
other case. -/
def Node.as_mesh : Node → Option Mesh
  | .mesh v => some v
  | _ => none

/-- `as_mesh_mut` from `define_is_as!` (same partiality as `as_mesh`;
the mutable borrow is modelled as the same partial projection). -/
def Node.as_mesh_mut : Node → Option Mesh
  | .mesh v => some v
  | _ => none

/-- `is_camera` from `define_is_as!`. -/
def Node.is_camera : Node → Bool
  | .camera _ => true
  | _ => false

/-- `as_camera` from `define_is_as!`; `none` models the panic. -/
def Node.as_camera : Node → Option Camera
  | .camera v => some v
  | _ => none

/-- `as_camera_mut` from `define_is_as!`; `none` models the panic. -/
def Node.as_camera_mut : Node → Option Camera
  | .camera v => some v
  | _ => none

/-- `is_light` from `define_is_as!`. -/
def Node.is_light : Node → Bool
  | .light _ => true
  | _ => false

/-- `as_light` from `define_is_as!`; `none` models the panic. -/
def Node.as_light : Node → Option Light
  | .light v => some v
  | _ => none

/-- `as_light_mut` from `define_is_as!`; `none` models the panic. -/
def Node.as_light_mut : Node → Option Light
  | .light v => some v
  | _ => none

/-- `is_particle_system` from `define_is_as!`. -/
def Node.is_particle_system : Node → Bool
  | .particleSystem _ => true
  | _ => false

/-- `as_particle_system` from `define_is_as!`; `none` models the panic. -/
def Node.as_particle_system : Node → Option ParticleSystem
  | .particleSystem v => some v
  | _ => none

/-- `as_particle_system_mut` from `define_is_as!`; `none` models the
panic. -/
def Node.as_particle_system_mut : Node → Option ParticleSystem
  | .particleSystem v => some v
  | _ => none

/-- `is_sprite` from `define_is_as!`. -/
def Node.is_sprite : Node → Bool
  | .sprite _ => true
  | _ => false

/-- `as_sprite` from `define_is_as!`; `none` models the panic. -/
def Node.as_sprite : Node → Option Sprite
  | .sprite v => some v
  | _ => none

/-- `as_sprite_mut` from `define_is_as!`; `none` models the panic. -/
def Node.as_sprite_mut : Node → Option Sprite
  | .sprite v => some v
  | _ => none

/-- Modelled from the spec: a value stored in the visitor's field stream.
The visitor engine is an external collaborator; the kind identifier is
written as a 1-byte unsigned integer field, and each per-kind payload
codec is opaque, writing/reading the payload's own fields as one
symmetric unit (the spec's round-trip requirement on payload codecs). -/
inductive FieldValue where
  | u8 (v : Nat)
  | basePayload (v : Base)
  | lightPayload (v : Light)
  | cameraPayload (v : Camera)
  | meshPayload (v : Mesh)
  | spritePayload (v : Sprite)
  | particleSystemPayload (v : ParticleSystem)
  deriving Repr, DecidableEq

/-- Modelled from the spec: the abstract field-visitor session. It
carries the mode flag (`is_reading`) and the named-field stream: writing
appends a named field, reading consumes the next one. -/
structure Visitor where
  reading : Bool
  stream : List (String × FieldValue)
  deriving Repr, DecidableEq

/-- Modelled from the spec: `u8::visit(name, visitor)` — the visitor
protocol on a 1-byte unsigned integer field. In write mode it appends
the named field; in read mode it consumes the next field, failing on a
name or type mismatch (truncated or inconsistent stream). -/
def visitU8 (v : Nat) (name : String) (vis : Visitor) : Except String (Nat × Visitor) :=
  if vis.reading then
    match vis.stream with
    | (n, .u8 w) :: rest =>
      if n = name then .ok (w, { vis with stream := rest })
      else .error "field name mismatch"
    | _ => .error "expected u8 field"
  else
    .ok (v, { vis with stream := vis.stream ++ [(name, .u8 v)] })

/-- Modelled from the spec: the opaque `Base` payload codec
(`Base::visit`), symmetric per the spec's round-trip requirement. -/
def Base.visit (b : Base) (name : String) (vis : Visitor) : Except String (Base × Visitor) :=
  if vis.reading then
    match vis.stream with
    | (n, .basePayload v) :: rest =>
      if n = name then .ok (v, { vis with stream := rest })
      else .error "field name mismatch"
    | _ => .error "Base payload decode failed"
  else
    .ok (b, { vis with stream := vis.stream ++ [(name, .basePayload b)] })

/-- Modelled from the spec: the opaque `Light` payload codec. -/
def Light.visit (l : Light) (name : String) (vis : Visitor) : Except String (Light × Visitor) :=
  if vis.reading then
    match vis.stream with
    | (n, .lightPayload v) :: rest =>
      if n = name then .ok (v, { vis with stream := rest })
      else .error "field name mismatch"
    | _ => .error "Light payload decode failed"
  else
    .ok (l, { vis with stream := vis.stream ++ [(name, .lightPayload l)] })

/-- Modelled from the spec: the opaque `Camera` payload codec. -/
def Camera.visit (c : Camera) (name : String) (vis : Visitor) : Except String (Camera × Visitor) :=
  if vis.reading then
    match vis.stream with
    | (n, .cameraPayload v) :: rest =>
      if n = name then .ok (v, { vis with stream := rest })
      else .error "field name mismatch"
    | _ => .error "Camera payload decode failed"
  else
    .ok (c, { vis with stream := vis.stream ++ [(name, .cameraPayload c)] })

/-- Modelled from the spec: the opaque `Mesh` payload codec. -/
def Mesh.visit (m : Mesh) (name : String) (vis : Visitor) : Except String (Mesh × Visitor) :=
  if vis.reading then
    match vis.stream with
    | (n, .meshPayload v) :: rest =>
      if n = name then .ok (v, { vis with stream := rest })
      else .error "field name mismatch"
    | _ => .error "Mesh payload decode failed"
  else
    .ok (m, { vis with stream := vis.stream ++ [(name, .meshPayload m)] })

/-- Modelled from the spec: the opaque `Sprite` payload codec. -/
def Sprite.visit (s : Sprite) (name : String) (vis : Visitor) : Except String (Sprite × Visitor) :=
  if vis.reading then
    match vis.stream with
    | (n, .spritePayload v) :: rest =>
      if n = name then .ok (v, { vis with stream := rest })
      else .error "field name mismatch"
    | _ => .error "Sprite payload decode failed"
  else
    .ok (s, { vis with stream := vis.stream ++ [(name, .spritePayload s)] })

/-- Modelled from the spec: the opaque `ParticleSystem` payload codec. -/
def ParticleSystem.visit (p : ParticleSystem) (name : String) (vis : Visitor) :
    Except String (ParticleSystem × Visitor) :=
  if vis.reading then
    match vis.stream with
    | (n, .particleSystemPayload v) :: rest =>
      if n = name then .ok (v, { vis with stream := rest })
      else .error "field name mismatch"
    | _ => .error "ParticleSystem payload decode failed"
  else
    .ok (p, { vis with stream := vis.stream ++ [(name, .particleSystemPayload p)] })

/-- `static_dispatch!(self, visit, name, visitor)`: forwards `visit` to
whichever payload is active. On success the payload is stored back in
the same case; on a payload error the error is forwarded unchanged
(the triple returns the node and visitor as they stood, matching the
`&mut` early return). -/
def Node.dispatchVisit (self : Node) (name : String) (vis : Visitor) :
    Except String Unit × Node × Visitor :=
  match self with
  | .base v =>
    match Base.visit v name vis with
    | .ok (v2, vis2) => (.ok (), .base v2, vis2)
    | .error e => (.error e, .base v, vis)
  | .mesh v =>
    match Mesh.visit v name vis with
    | .ok (v2, vis2) => (.ok (), .mesh v2, vis2)
    | .error e => (.error e, .mesh v, vis)
  | .camera v =>
    match Camera.visit v name vis with
    | .ok (v2, vis2) => (.ok (), .camera v2, vis2)
    | .error e => (.error e, .camera v, vis)
  | .light v =>
    match Light.visit v name vis with
    | .ok (v2, vis2) => (.ok (), .light v2, vis2)
    | .error e => (.error e, .light v, vis)
  | .particleSystem v =>
    match ParticleSystem.visit v name vis with
    | .ok (v2, vis2) => (.ok (), .particleSystem v2, vis2)
    | .error e => (.error e, .particleSystem v, vis)
  | .sprite v =>
    match Sprite.visit v name vis with
    | .ok (v2, vis2) => (.ok (), .sprite v2, vis2)
    | .error e => (.error e, .sprite v, vis)

/-- `impl Visit for Node::visit`, translated statement by statement from
the source. The `&mut self` / `&mut visitor` parameters become explicit
state: the result carries the `VisitResult` together with the final node
and visitor; a `?` early return leaves the current values in place.

Source:
```text
let mut kind_id = self.id();
kind_id.visit("KindId", visitor)?;
if visitor.is_reading() \x7b
    *self = Node::from_id(kind_id)?;
\x7d
static_dispatch!(self, visit, name, visitor)
```
-/
def Node.visit (self : Node) (name : String) (vis : Visitor) :
    Except String Unit × Node × Visitor :=
  match visitU8 self.id "KindId" vis with
  | .error e => (.error e, self, vis)
  | .ok (kind_id, vis2) =>
    if vis2.reading then
      match Node.from_id kind_id with
      | .error e => (.error e, self, vis2)
      | .ok d => Node.dispatchVisit d name vis2
    else
      Node.dispatchVisit self name vis2

/-!  ## Theorems -/

/-- C1: the kind identifier mapping is a bijection with the fixed
assignment Base=0, Light=1, Camera=2, Mesh=3, Sprite=4, ParticleSystem=5:
for every node `x`, `from_id (id x)` succeeds with a node of the same id;
for every `i ≤ 5`, `from_id i` succeeds with a node whose id is `i`; for
every `i > 5`, `from_id i` fails with the unknown-kind error (in
particular `from_id 6` fails). -/
theorem kind_identifier_bijection :
    (∀ x : Node, ∃ y : Node, Node.from_id x.id = Except.ok y ∧ y.id = x.id) ∧
    (∀ i : Nat, i ≤ 5 → ∃ y : Node, Node.from_id i = Except.ok y ∧ y.id = i) ∧
    (∀ i : Nat, 5 < i → Node.from_id i = Except.error ("Invalid node kind " ++ toString i)) ∧
    (Node.from_id 6 = Except.error "Invalid node kind 6") := by
  refine ⟨?_, ?_, ?_, rfl⟩
  · intro x
    cases x <;> exact ⟨_, rfl, rfl⟩
  · intro i h
    interval_cases i <;> exact ⟨_, rfl, rfl⟩
  · intro i h
    match i, h with
    | i + 6, _ => rfl

/-- Witness for C1 at concrete inputs `i = 3` and `i = 7`. -/
theorem kind_identifier_bijection_witness :
    (∃ y : Node, Node.from_id 3 = Except.ok y ∧ y.id = 3) ∧
    Node.from_id 7 = Except.error ("Invalid node kind " ++ toString 7) :=
  ⟨kind_identifier_bijection.2.1 3 (by decide),
   kind_identifier_bijection.2.2.1 7 (by decide)⟩

/-- C5: each `is_K` predicate is a total boolean function that returns
true iff the active case is `K`; a node constructed as concrete kind `K`
satisfies `is_K` and falsifies the other four predicates. -/
theorem is_predicates_sound :
    (∀ n : Node, n.is_mesh = true ↔ ∃ v, n = Node.mesh v) ∧
    (∀ n : Node, n.is_camera = true ↔ ∃ v, n = Node.camera v) ∧
    (∀ n : Node, n.is_light = true ↔ ∃ v, n = Node.light v) ∧
    (∀ n : Node, n.is_sprite = true ↔ ∃ v, n = Node.sprite v) ∧
    (∀ n : Node, n.is_particle_system = true ↔ ∃ v, n = Node.particleSystem v) ∧
    (∀ v, (Node.mesh v).is_mesh = true ∧ (Node.mesh v).is_camera = false ∧
      (Node.mesh v).is_light = false ∧ (Node.mesh v).is_sprite = false ∧
      (Node.mesh v).is_particle_system = false) ∧
    (∀ v, (Node.camera v).is_camera = true ∧ (Node.camera v).is_mesh = false ∧
      (Node.camera v).is_light = false ∧ (Node.camera v).is_sprite = false ∧
      (Node.camera v).is_particle_system = false) ∧
    (∀ v, (Node.light v).is_light = true ∧ (Node.light v).is_mesh = false ∧
      (Node.light v).is_camera = false ∧ (Node.light v).is_sprite = false ∧
      (Node.light v).is_particle_system = false) ∧
    (∀ v, (Node.sprite v).is_sprite = true ∧ (Node.sprite v).is_mesh = false ∧
      (Node.sprite v).is_camera = false ∧ (Node.sprite v).is_light = false ∧
      (Node.sprite v).is_particle_system = false) ∧
    (∀ v, (Node.particleSystem v).is_particle_system = true ∧
      (Node.particleSystem v).is_mesh = false ∧ (Node.particleSystem v).is_camera = false ∧
      (Node.particleSystem v).is_light = false ∧ (Node.particleSystem v).is_sprite = false) := by
  refine ⟨?_, ?_, ?_, ?_, ?_, ?_, ?_, ?_, ?_, ?_⟩ <;>
    (intro n; cases n <;>
      simp [Node.is_mesh, Node.is_camera, Node.is_light, Node.is_sprite,
        Node.is_particle_system])

/-- C4: each downcast accessor `as_K` / `as_K_mut` returns the held
payload when the active case is `K`, and panics (modelled as `none`)
whenever the active case is any other kind; in particular `as_light` on
a `Camera` node panics. -/
theorem as_accessors_panic_on_mismatch :
    (∀ v, (Node.mesh v).as_mesh = some v ∧ (Node.mesh v).as_mesh_mut = some v) ∧
    (∀ n : Node, n.is_mesh = false → n.as_mesh = none ∧ n.as_mesh_mut = none) ∧
    (∀ v, (Node.camera v).as_camera = some v ∧ (Node.camera v).as_camera_mut = some v) ∧
    (∀ n : Node, n.is_camera = false → n.as_camera = none ∧ n.as_camera_mut = none) ∧
    (∀ v, (Node.light v).as_light = some v ∧ (Node.light v).as_light_mut = some v) ∧
    (∀ n : Node, n.is_light = false → n.as_light = none ∧ n.as_light_mut = none) ∧
    (∀ v, (Node.sprite v).as_sprite = some v ∧ (Node.sprite v).as_sprite_mut = some v) ∧
    (∀ n : Node, n.is_sprite = false → n.as_sprite = none ∧ n.as_sprite_mut = none) ∧
    (∀ v, (Node.particleSystem v).as_particle_system = some v ∧
      (Node.particleSystem v).as_particle_system_mut = some v) ∧
    (∀ n : Node, n.is_particle_system = false →
      n.as_particle_system = none ∧ n.as_particle_system_mut = none) ∧
    (∀ v, (Node.camera v).as_light = none) := by
  refine ⟨?_, ?_, ?_, ?_, ?_, ?_, ?_, ?_, ?_, ?_, ?_⟩ <;>
    first
      | (intro v; exact ⟨rfl, rfl⟩)
      | (intro v; rfl)
      | (intro n h; cases n <;>
          simp_all [Node.is_mesh, Node.is_camera, Node.is_light, Node.is_sprite,
            Node.is_particle_system, Node.as_mesh, Node.as_mesh_mut, Node.as_camera,
            Node.as_camera_mut, Node.as_light, Node.as_light_mut, Node.as_sprite,
            Node.as_sprite_mut, Node.as_particle_system, Node.as_particle_system_mut])

/-- Witness for C4: `as_light` and `as_light_mut` on a concrete `Camera`
node panic (modelled as `none`). -/
theorem as_accessors_panic_on_mismatch_witness :
    (Node.camera Camera.default).as_light = none ∧
    (Node.camera Camera.default).as_light_mut = none :=
  as_accessors_panic_on_mismatch.2.2.2.2.2.1 (Node.camera Camera.default) (by decide)

/-- C7: the default `Node` is a `Base`-kind node holding a
default-constructed `Base` payload, and its id is 0. -/
theorem default_node_is_base :
    Node.default = Node.base Base.default ∧ Node.default.id = 0 :=
  ⟨rfl, rfl⟩

/-- C8: the shared-base view (`Deref`/`DerefMut` to `Base`) returns
exactly the `Base` embedded in whichever payload is active, for each of
the six kinds, and mutation through the view acts on exactly that
`Base` without changing the active kind; consequently set-name followed
by get-name behaves identically for all kinds. -/
theorem base_view_universality :
    (∀ v : Base, (Node.base v).derefBase = v) ∧
    (∀ v : Light, (Node.light v).derefBase = v.base) ∧
    (∀ v : Camera, (Node.camera v).derefBase = v.base) ∧
    (∀ v : Mesh, (Node.mesh v).derefBase = v.base) ∧
    (∀ v : Sprite, (Node.sprite v).derefBase = v.base) ∧
    (∀ v : ParticleSystem, (Node.particleSystem v).derefBase = v.base) ∧
    (∀ (n : Node) (f : Base → Base), (n.modifyBase f).derefBase = f n.derefBase) ∧
    (∀ (n : Node) (f : Base → Base), (n.modifyBase f).id = n.id) ∧
    (∀ (n : Node) (s : String), (n.setName s).getName = s) := by
  refine ⟨fun v => rfl, fun v => rfl, fun v => rfl, fun v => rfl, fun v => rfl,
    fun v => rfl, ?_, ?_, ?_⟩
  · intro n f; cases n <;> rfl
  · intro n f; cases n <;> rfl
  · intro n s; cases n <;> rfl

/-- C10: a `Base`-kind node falsifies all five concrete-kind predicates
and makes all ten downcast accessors panic (modelled as `none`); and for
any node, all five predicates being false is equivalent to the active
case being `Base` (equivalently, `id = 0`). -/
theorem base_node_interface (b : Base) :
    ((Node.base b).is_mesh = false ∧ (Node.base b).is_camera = false ∧
      (Node.base b).is_light = false ∧ (Node.base b).is_sprite = false ∧
      (Node.base b).is_particle_system = false) ∧
    ((Node.base b).as_mesh = none ∧ (Node.base b).as_mesh_mut = none ∧
      (Node.base b).as_camera = none ∧ (Node.base b).as_camera_mut = none ∧
      (Node.base b).as_light = none ∧ (Node.base b).as_light_mut = none ∧
      (Node.base b).as_sprite = none ∧ (Node.base b).as_sprite_mut = none ∧
      (Node.base b).as_particle_system = none ∧
      (Node.base b).as_particle_system_mut = none) ∧
    (∀ n : Node,
      (n.is_mesh = false ∧ n.is_camera = false ∧ n.is_light = false ∧
        n.is_sprite = false ∧ n.is_particle_system = false) ↔ n.id = 0) := by
  refine ⟨⟨rfl, rfl, rfl, rfl, rfl⟩,
    ⟨rfl, rfl, rfl, rfl, rfl, rfl, rfl, rfl, rfl, rfl⟩, ?_⟩
  intro n
  cases n <;>
    simp [Node.is_mesh, Node.is_camera, Node.is_light, Node.is_sprite,
      Node.is_particle_system, Node.id]

/-- C6: in write mode, `visit` encodes the kind identifier of the current
active case first, as a 1-byte field (value at most 5) under the reserved
name "KindId", appended before the active payload's own fields, and
leaves the node unchanged. -/
theorem visit_writes_kind_id_first (v : Node) (name : String)
    (s0 : List (String × FieldValue)) :
    ∃ payloadFields : List (String × FieldValue),
      Node.visit v name { reading := false, stream := s0 } =
        (Except.ok (), v,
          { reading := false,
            stream := s0 ++ ("KindId", FieldValue.u8 v.id) :: payloadFields }) ∧
      v.id ≤ 5 := by
  cases v with
  | base v =>
    exact ⟨[(name, FieldValue.basePayload v)],
      by simp [Node.visit, visitU8, Node.dispatchVisit, Node.id, Base.visit], by simp [Node.id]⟩
  | light v =>
    exact ⟨[(name, FieldValue.lightPayload v)],
      by simp [Node.visit, visitU8, Node.dispatchVisit, Node.id, Light.visit], by simp [Node.id]⟩
  | camera v =>
    exact ⟨[(name, FieldValue.cameraPayload v)],
      by simp [Node.visit, visitU8, Node.dispatchVisit, Node.id, Camera.visit], by simp [Node.id]⟩
  | mesh v =>
    exact ⟨[(name, FieldValue.meshPayload v)],
      by simp [Node.visit, visitU8, Node.dispatchVisit, Node.id, Mesh.visit], by simp [Node.id]⟩
  | sprite v =>
    exact ⟨[(name, FieldValue.spritePayload v)],
      by simp [Node.visit, visitU8, Node.dispatchVisit, Node.id, Sprite.visit], by simp [Node.id]⟩
  | particleSystem v =>
    exact ⟨[(name, FieldValue.particleSystemPayload v)],
      by simp [Node.visit, visitU8, Node.dispatchVisit, Node.id, ParticleSystem.visit],
      by simp [Node.id]⟩

/-- C2: serialization round-trip — writing any node `v` from an empty
stream succeeds, leaves `v` unchanged and produces a stream from which a
read into a fresh destination (`Node.default`) reconstructs a node equal
to `v` (same active kind, equal payload), consuming the whole stream. -/
theorem visit_round_trip (v : Node) (name : String) :
    ∃ s : List (String × FieldValue),
      Node.visit v name { reading := false, stream := [] } =
        (Except.ok (), v, { reading := false, stream := s }) ∧
      Node.visit Node.default name { reading := true, stream := s } =
        (Except.ok (), v, { reading := true, stream := [] }) := by
  cases v <;>
    exact ⟨_,
      rfl,
      by simp [Node.visit, visitU8, Node.from_id, Node.default, Node.dispatchVisit,
        Node.id, Base.visit, Light.visit, Camera.visit, Mesh.visit, Sprite.visit,
        ParticleSystem.visit]⟩

/-- C3: in read mode, `visit` first decodes the "KindId" field, then
constructs a default node of that kind via `from_id`, discarding the
destination, and only then delegates to the newly constructed payload's
own read; an out-of-range identifier makes `visit` fail with the
unknown-kind error propagated from `from_id`, and payload-level decode
errors are forwarded unchanged. -/
theorem visit_read_path (d : Node) (name : String) (kid : Nat)
    (rest : List (String × FieldValue)) :
    (∀ e : String, Node.from_id kid = Except.error e →
      Node.visit d name { reading := true, stream := ("KindId", FieldValue.u8 kid) :: rest } =
        (Except.error e, d, { reading := true, stream := rest })) ∧
    (∀ c : Node, Node.from_id kid = Except.ok c →
      Node.visit d name { reading := true, stream := ("KindId", FieldValue.u8 kid) :: rest } =
        Node.dispatchVisit c name { reading := true, stream := rest }) ∧
    (∀ (c n2 : Node) (e : String) (vis2 : Visitor), Node.from_id kid = Except.ok c →
      Node.dispatchVisit c name { reading := true, stream := rest } =
        (Except.error e, n2, vis2) →
      Node.visit d name { reading := true, stream := ("KindId", FieldValue.u8 kid) :: rest } =
        (Except.error e, n2, vis2)) := by
  refine ⟨?_, ?_, ?_⟩
  · intro e h
    simp [Node.visit, visitU8, h]
  · intro c h
    simp [Node.visit, visitU8, h]
  · intro c n2 e vis2 h hd
    simp [Node.visit, visitU8, h, hd]

/-- Witness for C3: reading a stream whose kind identifier is 6 fails
with the unknown-kind error and returns the destination unchanged. -/
theorem visit_read_path_witness :
    Node.visit Node.default "node" { reading := true, stream := [("KindId", FieldValue.u8 6)] } =
      (Except.error "Invalid node kind 6", Node.default, { reading := true, stream := [] }) :=
  (visit_read_path Node.default "node" 6 []).1 "Invalid node kind 6" rfl

/-- Inversion for `visitU8` on success: it preserves the reading flag. -/
theorem visitU8_reading_eq (v : Nat) (name : String) (vis : Visitor) (w : Nat)
    (vis2 : Visitor) (h : visitU8 v name vis = Except.ok (w, vis2)) :
    vis2.reading = vis.reading := by
  unfold visitU8 at h
  split at h
  · split at h
    · split at h
      · cases h
        rfl
      · cases h
    · cases h
  · cases h
    rfl

/-- C9: decode atomicity — in read mode, if visiting the "KindId" field
fails, or the decoded identifier makes `from_id` fail, `visit` returns
that error with the destination node exactly as it was; the destination
is replaced only after `from_id` succeeds. -/
theorem visit_read_failure_atomic (d : Node) (name : String) (vis : Visitor)
    (h : vis.reading = true) :
    (∀ e : String, visitU8 d.id "KindId" vis = Except.error e →
      Node.visit d name vis = (Except.error e, d, vis)) ∧
    (∀ (kid : Nat) (vis2 : Visitor) (e : String),
      visitU8 d.id "KindId" vis = Except.ok (kid, vis2) →
      Node.from_id kid = Except.error e →
      Node.visit d name vis = (Except.error e, d, vis2)) := by
  constructor
  · intro e he
    simp [Node.visit, he]
  · intro kid vis2 e h1 h2
    have hr : vis2.reading = true := by
      rw [visitU8_reading_eq d.id "KindId" vis kid vis2 h1, h]
    simp [Node.visit, h1, hr, h2]

/-- Witness for C9: a stream carrying kind identifier 7 makes `visit`
fail and hand back the destination (here a default `Base` node)
unchanged. -/
theorem visit_read_failure_atomic_witness :
    Node.visit Node.default "node" { reading := true, stream := [("KindId", FieldValue.u8 7)] } =
      (Except.error ("Invalid node kind " ++ toString 7), Node.default,
        { reading := true, stream := [] }) :=
  (visit_read_failure_atomic Node.default "node"
      { reading := true, stream := [("KindId", FieldValue.u8 7)] } rfl).2
    7 { reading := true, stream := [] } ("Invalid node kind " ++ toString 7)
    (by simp [visitU8]) rfl

end RG3D
